/-
Verification of the NearNode option-discovery and scoring engine
(`api/services.py`) against its natural-language specification.

Shallow embedding conventions:
- Python floats and Django `DecimalField`s are modelled as `ℚ` (exact
  rationals); Python numeric literals such as `0.5`, `0.3`, `1.5` are
  taken at their decimal value.
- Django querysets are lists.  A model's `Meta.ordering` is modelled by a
  stable `List.mergeSort` on the declared key (`Airport` orders by `name`,
  `Flight` by `departure_time`); `GroundTransport` declares no ordering and
  keeps database order.  `.filter(...)` is `List.filter`, `.first()` is
  `List.head?`, `.get(...)` is `List.find?` (lawful because the looked-up
  columns carry a `unique=True` constraint).
- Foreign keys are represented by the target's unique `iata_code`
  (`Airport.iata_code` is `unique=True`, so identity-by-id and
  identity-by-code agree); `FlightConnection`'s flight references are
  inlined records.
- `datetime` values are seconds (`departure_time`, `arrival_time`), with
  the derived calendar date (`departure_time__date`) and weekday carried
  as separate fields, since the engine only ever compares them.
- External collaborators — geopy's `geodesic` distance and the Nominatim
  geocoder — are abstract function parameters (`dist`, `geocode`); the
  theorems hold for every choice, in particular the real ones.
-/
import Mathlib

namespace NearNode

/-- `core.models.Airport` (the fields the engine reads). -/
structure Airport where
  iata_code : String
  name : String
  city : String
  country : String
  latitude : ℚ
  longitude : ℚ
  has_lounge : Bool
  has_sleeping_pods : Bool
  city_access_time : Int
  layover_quality_score : ℚ
deriving DecidableEq

/-- `core.models.Flight` (the fields the engine reads). -/
structure Flight where
  flight_number : String
  airline : String
  origin_iata : String
  dest_iata : String
  departure_date : Int
  departure_time : Int
  arrival_time : Int
  departure_weekday : Nat
  price_eur : ℚ
  duration_minutes : Int
deriving DecidableEq

/-- `core.models.GroundTransport`. -/
structure GroundTransport where
  name : String
  transport_type : String
  from_airport : String
  to_airport : Option String
  to_address : String
  duration_minutes : Int
  cost_eur : ℚ
deriving DecidableEq

/-- `core.models.DelayPrediction` row (route/airline/day keyed history). -/
structure DelayPrediction where
  route : String
  airline : String
  day_of_week : Nat
  delay_probability : ℚ
  avg_delay_minutes : Int
  sample_size : Nat
deriving DecidableEq

/-- `core.models.FlightConnection` (the fields the risk engine reads). -/
structure FlightConnection where
  first_flight : Flight
  second_flight : Option Flight
  layover_minutes : Int
  is_self_transfer : Bool
  self_transfer_risk : ℚ
deriving DecidableEq

/-- The database visible to the service layer. -/
structure DB where
  airports : List Airport
  flights : List Flight
  transports : List GroundTransport
  predictions : List DelayPrediction

/-- `Airport.objects.all()` — `Meta.ordering = ['name']`. -/
def airports_all (db : DB) : List Airport :=
  db.airports.mergeSort (fun a b => decide (a.name ≤ b.name))

/-- A `Flight` queryset after `.filter(p)` — `Meta.ordering = ['departure_time']`. -/
def flights_filter (db : DB) (p : Flight → Bool) : List Flight :=
  (db.flights.filter p).mergeSort (fun a b => decide (a.departure_time ≤ b.departure_time))

/-- An `{'airport': ..., 'distance_km': ...}` entry of the radius search. -/
structure AirportDistance where
  airport : Airport
  distance_km : ℚ
deriving DecidableEq

/-- `NearestAlternateService.find_airports_in_radius`.
`dist` abstracts `geopy.distance.geodesic(..).kilometers`. -/
def find_airports_in_radius (dist : ℚ × ℚ → ℚ × ℚ → ℚ) (db : DB)
    (dest_lat dest_lon radius_km : ℚ) : List AirportDistance :=
  let nearby := (airports_all db).filterMap (fun airport =>
    let distance := dist (dest_lat, dest_lon) (airport.latitude, airport.longitude)
    if distance ≤ radius_km then some ⟨airport, distance⟩ else none)
  nearby.mergeSort (fun x y => decide (x.distance_km ≤ y.distance_km))

/-- `NearestAlternateService.calculate_total_trip_cost`. -/
def calculate_total_trip_cost (flight : Flight) (ground_transport : Option GroundTransport) : ℚ :=
  flight.price_eur + (match ground_transport with
    | some t => t.cost_eur
    | none => 0)

/-- `NearestAlternateService.calculate_total_trip_time`. -/
def calculate_total_trip_time (flight : Flight) (ground_transport : Option GroundTransport) : Int :=
  flight.duration_minutes + (match ground_transport with
    | some t => t.duration_minutes
    | none => 0)

/-- Python's `str.strip()` (no arguments): drop whitespace from both ends.
Modelled over the string's character list. -/
def py_strip (s : String) : String :=
  ⟨((s.data.dropWhile Char.isWhitespace).reverse.dropWhile Char.isWhitespace).reverse⟩

/-- Python's `str.upper()`, modelled over the string's character list. -/
def py_upper (s : String) : String :=
  ⟨s.data.map Char.toUpper⟩

/-- `NearestAlternateService._resolve_destination_coords`.
`geocode` abstracts `geocode_address` (Nominatim), returning `none` for the
source's `(None, None)`. -/
def resolve_destination_coords (geocode : String → Option (ℚ × ℚ)) (db : DB)
    (final_destination_address : String) : Option (ℚ × ℚ) :=
  let addr := py_strip final_destination_address
  if addr.length = 3 ∧ addr.toList.all Char.isAlpha then
    match (airports_all db).find? (fun a => decide (a.iata_code = py_upper addr)) with
    | some airport => some (airport.latitude, airport.longitude)
    | none => geocode addr
  else
    geocode addr

/-- One result row of `find_best_alternates`. -/
structure AltResult where
  flight : Flight
  ground_transport : Option GroundTransport
  airport : Airport
  distance_to_destination_km : ℚ
  total_cost_eur : ℚ
  total_time_minutes : Int
  flight_cost : ℚ
  ground_cost : ℚ
deriving DecidableEq

/-- The per-airport result-building loop of `find_best_alternates`
(lines 97–135), before the final sort. -/
def alternates_loop (dist : ℚ × ℚ → ℚ × ℚ → ℚ) (db : DB) (origin_airport : Airport)
    (final_destination_address : String) (date : Int) (dest_lat dest_lon radius_km : ℚ) :
    List AltResult :=
  (find_airports_in_radius dist db dest_lat dest_lon radius_km).flatMap (fun item =>
    let airport := item.airport
    let flights := flights_filter db (fun f =>
      decide (f.origin_iata = origin_airport.iata_code ∧ f.dest_iata = airport.iata_code ∧
        f.departure_date = date))
    let ground_transports := db.transports.filter (fun t =>
      decide (t.from_airport = airport.iata_code ∧
        t.to_address = py_strip final_destination_address))
    let ground_transports := if ground_transports.isEmpty then
        (db.transports.filter (fun t => decide (t.from_airport = airport.iata_code))).take 1
      else ground_transports
    let transport := ground_transports.head?
    flights.map (fun flight =>
      { flight := flight
        ground_transport := transport
        airport := airport
        distance_to_destination_km := item.distance_km
        total_cost_eur := calculate_total_trip_cost flight transport
        total_time_minutes := calculate_total_trip_time flight transport
        flight_cost := flight.price_eur
        ground_cost := match transport with
          | some t => t.cost_eur
          | none => 0 }))

/-- The `(total_cost_eur, total_time_minutes)` sort key of
`results.sort(key=...)`, as a boolean total preorder. -/
def altLE (x y : AltResult) : Bool :=
  decide (x.total_cost_eur < y.total_cost_eur ∨
    (x.total_cost_eur = y.total_cost_eur ∧ x.total_time_minutes ≤ y.total_time_minutes))

/-- `NearestAlternateService.find_best_alternates`.  The `dest_lat = 0 ∨
dest_lon = 0` test mirrors Python's `if not dest_lat or not dest_lon`, under
which `0.0` is falsy just like `None`. -/
def find_best_alternates (dist : ℚ × ℚ → ℚ × ℚ → ℚ) (geocode : String → Option (ℚ × ℚ))
    (db : DB) (origin_airport_code final_destination_address : String)
    (date : Int) (radius_km : ℚ) : List AltResult :=
  let origin_code := py_upper (py_strip origin_airport_code)
  match resolve_destination_coords geocode db final_destination_address with
  | none => []
  | some (dest_lat, dest_lon) =>
    if dest_lat = 0 ∨ dest_lon = 0 then []
    else
      match (airports_all db).find? (fun a => decide (a.iata_code = origin_code)) with
      | none => []
      | some origin_airport =>
        (alternates_loop dist db origin_airport final_destination_address date
          dest_lat dest_lon radius_km).mergeSort altLE

/-- The fatal-error taxonomy of spec §7. -/
inductive SearchError where
  | originNotFound
  | destinationUnresolved
deriving DecidableEq

/-- The `findAlternates` contract as the SPEC states it (§6/§7): unknown
origin code fails with `OriginNotFound`, unresolved destination with
`DestinationUnresolved`; otherwise the ranked list.  Written for comparison
with the implementation `find_best_alternates`. -/
def findAlternatesSpec (dist : ℚ × ℚ → ℚ × ℚ → ℚ) (geocode : String → Option (ℚ × ℚ))
    (db : DB) (origin_airport_code final_destination_address : String)
    (date : Int) (radius_km : ℚ) : Except SearchError (List AltResult) :=
  let origin_code := py_upper (py_strip origin_airport_code)
  match resolve_destination_coords geocode db final_destination_address with
  | none => .error .destinationUnresolved
  | some (dest_lat, dest_lon) =>
    match (airports_all db).find? (fun a => decide (a.iata_code = origin_code)) with
    | none => .error .originNotFound
    | some origin_airport =>
      .ok ((alternates_loop dist db origin_airport final_destination_address date
        dest_lat dest_lon radius_km).mergeSort altLE)

/-- `MultiModalConnectionService.calculate_layover_quality_score`. -/
def calculate_layover_quality_score (airport : Airport) (layover_minutes : ℚ) : ℚ :=
  let score : ℚ := 0
  let score := score + airport.layover_quality_score
  let score :=
    if 60 ≤ layover_minutes ∧ layover_minutes ≤ 180 then score + 2
    else if layover_minutes < 45 then score - 3
    else if layover_minutes > 360 then score - 1
    else score
  let score := if airport.has_lounge then score + 1.5 else score
  let score := if airport.has_sleeping_pods then score + 1 else score
  let score := if airport.city_access_time > 0 ∧ layover_minutes > 180 then score + 1 else score
  min 10 (max 0 score)

/-- The flight-to-flight layover in minutes:
`(flight2.departure_time - flight1.arrival_time).total_seconds() / 60`. -/
def layover_of (flight1 flight2 : Flight) : ℚ :=
  ((flight2.departure_time - flight1.arrival_time : Int) : ℚ) / 60

/-- `MultiModalConnectionService.find_train_connections`. -/
def find_train_connections (db : DB) (flight1 : Flight) (flight2 : Option Flight)
    (max_layover_hours : ℚ) : Option GroundTransport :=
  match flight2 with
  | none => none
  | some flight2 =>
    let layover := layover_of flight1 flight2
    if layover < 60 ∨ layover > max_layover_hours * 60 then none
    else
      let ground_transports := db.transports.filter (fun t =>
        decide (t.from_airport = flight1.dest_iata ∧
          t.to_airport = some flight2.origin_iata ∧ t.transport_type = "train"))
      ground_transports.find? (fun t => decide ((t.duration_minutes : ℚ) + 60 ≤ layover))

/-- The `type` tag of a multi-modal connection dict. -/
inductive CandidateType where
  | direct
  | train_link
  | connection
deriving DecidableEq

/-- One connection dict built by `create_multi_modal_connection`; absent
dict keys are `none`. -/
structure Candidate where
  ctype : CandidateType
  flight1 : Flight
  flight2 : Option Flight
  train : Option GroundTransport
  intermediate_airport : Option Airport
  total_cost : ℚ
  total_time : ℚ
  connection_quality : ℚ
  layover_minutes : Option ℚ
deriving DecidableEq

/-- The `(total_cost, -connection_quality)` sort key of
`connections.sort(key=...)`. -/
def candLE (x y : Candidate) : Bool :=
  decide (x.total_cost < y.total_cost ∨
    (x.total_cost = y.total_cost ∧ y.connection_quality ≤ x.connection_quality))

/-- `MultiModalConnectionService.create_multi_modal_connection`.
(`exclude(Q(id=origin.id) | Q(id=destination.id))` is modelled through the
unique `iata_code`.) -/
def create_multi_modal_connection (db : DB) (origin destination : Airport)
    (date : Int) : List Candidate :=
  let direct := (flights_filter db (fun f =>
      decide (f.origin_iata = origin.iata_code ∧ f.dest_iata = destination.iata_code ∧
        f.departure_date = date))).map (fun flight =>
    { ctype := .direct
      flight1 := flight
      flight2 := none
      train := none
      intermediate_airport := none
      total_cost := flight.price_eur
      total_time := (flight.duration_minutes : ℚ)
      connection_quality := 10
      layover_minutes := none })
  let intermediate_airports := ((airports_all db).filter (fun a =>
    decide (¬(a.iata_code = origin.iata_code ∨ a.iata_code = destination.iata_code)))).take 20
  let multi := intermediate_airports.flatMap (fun intermediate =>
    match (flights_filter db (fun f =>
        decide (f.origin_iata = origin.iata_code ∧ f.dest_iata = intermediate.iata_code ∧
          f.departure_date = date))).head? with
    | none => []
    | some flight1 =>
      match (flights_filter db (fun f =>
          decide (f.origin_iata = intermediate.iata_code ∧
            f.dest_iata = destination.iata_code ∧
            f.departure_time ≥ flight1.arrival_time + 60 * 60))).head? with
      | none => []
      | some flight2 =>
        let layover := layover_of flight1 flight2
        match find_train_connections db flight1 (some flight2) 6 with
        | some train =>
          [{ ctype := .train_link
             flight1 := flight1
             flight2 := some flight2
             train := some train
             intermediate_airport := some intermediate
             total_cost := flight1.price_eur + flight2.price_eur + train.cost_eur
             total_time := ((flight1.duration_minutes + flight2.duration_minutes +
               train.duration_minutes : Int) : ℚ)
             connection_quality :=
               calculate_layover_quality_score intermediate (train.duration_minutes : ℚ)
             layover_minutes := some layover }]
        | none =>
          [{ ctype := .connection
             flight1 := flight1
             flight2 := some flight2
             train := none
             intermediate_airport := some intermediate
             total_cost := flight1.price_eur + flight2.price_eur
             total_time := ((flight1.duration_minutes + flight2.duration_minutes : Int) : ℚ) +
               layover
             connection_quality := calculate_layover_quality_score intermediate layover
             layover_minutes := some layover }])
  (direct ++ multi).mergeSort candLE

/-- The `{delay_probability, avg_delay_minutes, sample_size}` dict returned
by `predict_delay`. -/
structure DelayInfo where
  delay_probability : ℚ
  avg_delay_minutes : Int
  sample_size : Nat
deriving DecidableEq

/-- `DelayPredictionService.predict_delay`. -/
def predict_delay (db : DB) (flight : Flight) : DelayInfo :=
  let route := flight.origin_iata ++ "-" ++ flight.dest_iata
  match db.predictions.find? (fun p =>
      decide (p.route = route ∧ p.airline = flight.airline ∧
        p.day_of_week = flight.departure_weekday)) with
  | some prediction =>
    { delay_probability := prediction.delay_probability
      avg_delay_minutes := prediction.avg_delay_minutes
      sample_size := prediction.sample_size }
  | none =>
    { delay_probability := 15
      avg_delay_minutes := 30
      sample_size := 0 }

/-- `DelayPredictionService.calculate_self_transfer_risk`. -/
def calculate_self_transfer_risk (db : DB) (connection : FlightConnection) : ℚ :=
  if ¬connection.is_self_transfer then 0
  else
    let layover_minutes := connection.layover_minutes
    let delay1 := predict_delay db connection.first_flight
    let delay2 := connection.second_flight.map (predict_delay db)
    let risk : ℚ := 0
    let risk :=
      if layover_minutes < 90 then risk + 40
      else if layover_minutes < 120 then risk + 20
      else if layover_minutes < 180 then risk + 10
      else risk
    let risk := risk + delay1.delay_probability * 0.5
    let risk := match delay2 with
      | some d => risk + d.delay_probability * 0.3
      | none => risk
    let risk :=
      if (delay1.avg_delay_minutes : ℚ) > (layover_minutes : ℚ) * 0.5 then risk + 20
      else risk
    min 100 risk

/-- The `{is_safe, risk_percentage, recommendation}` dict returned by
`check_self_transfer_insurance`. -/
structure InsuranceResult where
  is_safe : Bool
  risk_percentage : ℚ
  recommendation : String
deriving DecidableEq

/-- `DelayPredictionService.check_self_transfer_insurance`.  The source
assigns `connection.self_transfer_risk = risk` and calls
`connection.save()`; the persisted record is returned as the second
component. -/
def check_self_transfer_insurance (db : DB) (connection : FlightConnection) :
    InsuranceResult × FlightConnection :=
  let risk := calculate_self_transfer_risk db connection
  let connection := { connection with self_transfer_risk := risk }
  let recommendation :=
    if risk < 30 then "Safe"
    else if risk < 60 then "Risky"
    else "Very Risky"
  (⟨decide (risk < 30), risk, recommendation⟩, connection)

/-! ### Concrete instances, used by counterexamples and witnesses -/

/-- A concrete distance function (taxicab), standing in for `geodesic` in
closed evaluations; the general theorems hold for every distance function. -/
def dist1 : ℚ × ℚ → ℚ × ℚ → ℚ := fun p q => |p.1 - q.1| + |p.2 - q.2|

/-- A geocoder that resolves nothing. -/
def geocode_none : String → Option (ℚ × ℚ) := fun _ => none

/-- A concrete airport: base quality 7, lounge, no pods. -/
def airport1 : Airport :=
  ⟨"LHR", "Heathrow", "London", "UK", 51, 0, true, false, 45, 7⟩

/-- A concrete airport: base quality 5, no amenities, no city access. -/
def airport2 : Airport :=
  ⟨"STN", "Stansted", "London", "UK", 52, 1, false, false, 0, 5⟩

/-- A two-airport database with no flights. -/
def db1 : DB := ⟨[airport1, airport2], [], [], []⟩

/-- A flight landing at airport `III` at time 0. -/
def flight_in : Flight := ⟨"F1", "AL", "AAA", "III", 0, -3600, 0, 0, 100, 60⟩

/-- A flight leaving airport `III` 3600 seconds (60 minutes) later. -/
def flight_out : Flight := ⟨"F2", "AL", "III", "BBB", 0, 3600, 7200, 0, 80, 60⟩

/-- A zero-duration train from `III` to `III` (`find_train_connections`
looks for trains from the first leg's arrival airport to the second leg's
departure airport, which coincide here). -/
def train0 : GroundTransport := ⟨"T0", "train", "III", some "III", "", 0, 10⟩

/-- A database holding only `train0`. -/
def db_train : DB := ⟨[], [], [train0], []⟩

/-- An empty database. -/
def db_empty : DB := ⟨[], [], [], []⟩

/-- A self-transfer connection with a 30-minute layover and stored risk 0. -/
def conn_self : FlightConnection := ⟨flight_in, none, 30, true, 0⟩

/-- A through-ticketed (non-self-transfer) connection with a 10-minute
layover. -/
def conn_through : FlightConnection := ⟨flight_in, none, 10, false, 3⟩

/-- Origin airport for the multi-modal evaluation database. -/
def a_origin : Airport := ⟨"AAA", "Alpha", "A", "X", 0, 0, false, false, 0, 5⟩

/-- Destination airport for the multi-modal evaluation database. -/
def a_dest : Airport := ⟨"DDD", "Delta", "D", "X", 10, 10, false, false, 0, 5⟩

/-- Intermediate airport for the multi-modal evaluation database. -/
def a_mid : Airport := ⟨"III", "India", "I", "X", 5, 5, false, false, 0, 5⟩

/-- First leg `AAA → III`, arriving at 36000 s. -/
def f41 : Flight := ⟨"F41", "AL", "AAA", "III", 0, 0, 36000, 0, 100, 100⟩

/-- Second leg `III → DDD`, departing at 43200 s (120-minute layover). -/
def f42 : Flight := ⟨"F42", "AL", "III", "DDD", 0, 43200, 50000, 0, 80, 100⟩

/-- A 30-minute train at the intermediate airport (30 + 60 ≤ 120). -/
def t4 : GroundTransport := ⟨"T4", "train", "III", some "III", "", 30, 10⟩

/-- Database on which the multi-modal builder emits one train-link. -/
def db4 : DB := ⟨[a_origin, a_dest, a_mid], [f41, f42], [t4], []⟩

/-- The train-link candidate the builder emits on `db4`. -/
def c4 : Candidate :=
  { ctype := .train_link
    flight1 := f41
    flight2 := some f42
    train := some t4
    intermediate_airport := some a_mid
    total_cost := f41.price_eur + f42.price_eur + t4.cost_eur
    total_time := ((f41.duration_minutes + f42.duration_minutes +
      t4.duration_minutes : Int) : ℚ)
    connection_quality := calculate_layover_quality_score a_mid (t4.duration_minutes : ℚ)
    layover_minutes := some (layover_of f41 f42) }

/-- Origin airport, far from the query point, for the alternates search. -/
def b_origin : Airport := ⟨"AAA", "Alpha", "A", "X", 200, 200, false, false, 0, 5⟩

/-- Destination airport at (50, 4) for the alternates search. -/
def b_dest : Airport := ⟨"BBB", "Beta", "B", "X", 50, 4, false, false, 0, 5⟩

/-- First of two equally priced, equally long `AAA → BBB` flights. -/
def f5a : Flight := ⟨"F5A", "AL", "AAA", "BBB", 0, 1000, 2000, 0, 100, 90⟩

/-- Second of two equally priced, equally long `AAA → BBB` flights. -/
def f5b : Flight := ⟨"F5B", "AL", "AAA", "BBB", 0, 3000, 4000, 0, 100, 90⟩

/-- Database with two equal-key flights for the stable-sort witness. -/
def db5 : DB := ⟨[b_origin, b_dest], [f5a, f5b], [], []⟩

/-- The alternates row built from `f5a`. -/
def x5 : AltResult :=
  { flight := f5a
    ground_transport := none
    airport := b_dest
    distance_to_destination_km := 0
    total_cost_eur := calculate_total_trip_cost f5a none
    total_time_minutes := calculate_total_trip_time f5a none
    flight_cost := f5a.price_eur
    ground_cost := 0 }

/-- The alternates row built from `f5b`. -/
def y5 : AltResult :=
  { flight := f5b
    ground_transport := none
    airport := b_dest
    distance_to_destination_km := 0
    total_cost_eur := calculate_total_trip_cost f5b none
    total_time_minutes := calculate_total_trip_time f5b none
    flight_cost := f5b.price_eur
    ground_cost := 0 }

/-! ### Theorems -/

/-- **C2.** For every airport and layover duration, the layover quality
score equals the base score plus 2.0 for a layover in [60,180], minus 3.0
below 45, minus 1.0 above 360, plus 1.5 for a lounge, plus 1.0 for
sleeping pods, plus 1.0 when `city_access_time > 0` and the layover
exceeds 180 minutes, clamped to [0,10]; and the result lies in [0,10] for
any input combination. -/
theorem layover_quality_formula (airport : Airport) (L : ℚ) :
    calculate_layover_quality_score airport L =
      min 10 (max 0 (airport.layover_quality_score
        + (if 60 ≤ L ∧ L ≤ 180 then 2 else 0)
        + (if L < 45 then -3 else 0)
        + (if L > 360 then -1 else 0)
        + (if airport.has_lounge then 1.5 else 0)
        + (if airport.has_sleeping_pods then 1 else 0)
        + (if airport.city_access_time > 0 ∧ L > 180 then 1 else 0)))
    ∧ 0 ≤ calculate_layover_quality_score airport L
    ∧ calculate_layover_quality_score airport L ≤ 10 := by
  have heq : calculate_layover_quality_score airport L =
      min 10 (max 0 (airport.layover_quality_score
        + (if 60 ≤ L ∧ L ≤ 180 then 2 else 0)
        + (if L < 45 then -3 else 0)
        + (if L > 360 then -1 else 0)
        + (if airport.has_lounge then 1.5 else 0)
        + (if airport.has_sleeping_pods then 1 else 0)
        + (if airport.city_access_time > 0 ∧ L > 180 then 1 else 0))) := by
    unfold calculate_layover_quality_score
    split_ifs <;>
      first
      | exact congrArg (fun s : ℚ => min 10 (max 0 s)) (by ring1)
      | (exfalso; linarith)
  refine ⟨heq, ?_, ?_⟩
  · rw [heq]; exact le_min (by norm_num) (le_max_left 0 _)
  · rw [heq]; exact min_le_left 10 _

/-- **C7.** `check_self_transfer_insurance` returns the computed risk in
`risk_percentage`, recommendation "Safe" exactly when risk < 30, "Risky"
exactly when 30 ≤ risk < 60, "Very Risky" exactly when risk ≥ 60, and
`is_safe` true iff risk < 30. -/
theorem check_insurance_bands (db : DB) (c : FlightConnection) :
    ((check_self_transfer_insurance db c).1.risk_percentage
        = calculate_self_transfer_risk db c)
    ∧ ((check_self_transfer_insurance db c).1.recommendation = "Safe"
        ↔ calculate_self_transfer_risk db c < 30)
    ∧ ((check_self_transfer_insurance db c).1.recommendation = "Risky"
        ↔ 30 ≤ calculate_self_transfer_risk db c ∧
            calculate_self_transfer_risk db c < 60)
    ∧ ((check_self_transfer_insurance db c).1.recommendation = "Very Risky"
        ↔ 60 ≤ calculate_self_transfer_risk db c)
    ∧ ((check_self_transfer_insurance db c).1.is_safe = true
        ↔ calculate_self_transfer_risk db c < 30) := by
  simp only [check_self_transfer_insurance]
  split_ifs with h1 h2
  · exact ⟨trivial, iff_of_true rfl h1,
      iff_of_false (by decide) (fun h => absurd h1 (not_lt.mpr h.1)),
      iff_of_false (by decide) (fun h => absurd h1 (not_lt.mpr (by linarith))),
      by simp [h1]⟩
  · exact ⟨trivial, iff_of_false (by decide) h1,
      iff_of_true rfl ⟨not_lt.mp h1, h2⟩,
      iff_of_false (by decide) (fun h => absurd h2 (not_lt.mpr h)),
      by simp [h1]⟩
  · exact ⟨trivial, iff_of_false (by decide) h1,
      iff_of_false (by decide) (fun h => absurd h.2 h2),
      iff_of_true rfl (not_lt.mp h2),
      by simp [h1]⟩

/-- **C9 counterexample.** The claim says `checkSelfTransferRisk` leaves
all stored data unchanged; but on a self-transfer connection with stored
risk 0 and a 30-minute layover, the call writes the computed risk (67.5)
into `connection.self_transfer_risk` and saves it. -/
theorem check_insurance_mutates :
    (check_self_transfer_insurance db_empty conn_self).2.self_transfer_risk ≠
      conn_self.self_transfer_risk := by
  norm_num [check_self_transfer_insurance, calculate_self_transfer_risk,
    predict_delay, db_empty, conn_self, flight_in]

/-- **C9 (amended).** `check_self_transfer_insurance` computes its
`{is_safe, risk_percentage, recommendation}` result purely from its
inputs, but it also writes the computed risk into the connection's
`self_transfer_risk` field and persists that record; every other field of
the connection is unchanged. -/
theorem check_insurance_frame (db : DB) (c : FlightConnection) :
    (check_self_transfer_insurance db c).2 =
      { c with self_transfer_risk := calculate_self_transfer_risk db c }
    ∧ (check_self_transfer_insurance db c).1.risk_percentage
        = calculate_self_transfer_risk db c :=
  ⟨rfl, rfl⟩

/-- **C10.** For a connection whose `is_self_transfer` flag is false,
`calculate_self_transfer_risk` returns 0 and
`check_self_transfer_insurance` reports risk 0, safe, "Safe" — regardless
of layover or delay data. -/
theorem non_self_transfer_risk_zero (db : DB) (c : FlightConnection)
    (h : c.is_self_transfer = false) :
    calculate_self_transfer_risk db c = 0
    ∧ (check_self_transfer_insurance db c).1 =
        ⟨true, 0, "Safe"⟩ := by
  have h0 : calculate_self_transfer_risk db c = 0 := by
    unfold calculate_self_transfer_risk
    simp [h]
  refine ⟨h0, ?_⟩
  unfold check_self_transfer_insurance
  simp only [h0]
  norm_num

/-- Witness for **C10** at a concrete through-ticketed connection. -/
theorem non_self_transfer_risk_zero_witness :
    calculate_self_transfer_risk db_empty conn_through = 0
    ∧ (check_self_transfer_insurance db_empty conn_through).1 =
        ⟨true, 0, "Safe"⟩ :=
  non_self_transfer_risk_zero db_empty conn_through rfl

/-- **C8 counterexample.** The claim says a layover of exactly 45 minutes
scores the −3.0 "too short" penalty; but the source's `< 45` comparison is
strict, so 45 falls through every time branch: a no-amenity airport with
base 5 scores 5, not the claimed clamp(5 − 3) = 2. -/
theorem layover45_no_penalty :
    calculate_layover_quality_score airport2 45 = 5
    ∧ calculate_layover_quality_score airport2 45 ≠
        min 10 (max 0 (airport2.layover_quality_score - 3)) := by
  have e1 : calculate_layover_quality_score airport2 45 = 5 := by
    norm_num [calculate_layover_quality_score, airport2]
  have e2 : min 10 (max 0 (airport2.layover_quality_score - 3)) = 2 := by
    norm_num [airport2]
  refine ⟨e1, ?_⟩
  rw [e1, e2]
  norm_num

/-- **C8 (amended).** A layover of exactly 45 minutes receives no
time-based adjustment at all (the strict `< 45` comparison excludes it,
and it is below the [60,180] bonus window); a layover of exactly 60
minutes receives the +2.0 good-window bonus and is the minimum layover
eligible for train-link substitution: below 60 minutes
`find_train_connections` always returns `none`, while at exactly 60
minutes (flights `flight_in`/`flight_out`) a fitting train is returned. -/
theorem layover_boundary (a : Airport) (db : DB) (f1 f2 : Flight)
    (h : layover_of f1 f2 < 60) :
    calculate_layover_quality_score a 45 =
      min 10 (max 0 (a.layover_quality_score
        + (if a.has_lounge then 1.5 else 0)
        + (if a.has_sleeping_pods then 1 else 0)))
    ∧ calculate_layover_quality_score a 60 =
      min 10 (max 0 (a.layover_quality_score + 2
        + (if a.has_lounge then 1.5 else 0)
        + (if a.has_sleeping_pods then 1 else 0)))
    ∧ find_train_connections db f1 (some f2) 6 = none
    ∧ find_train_connections db_train flight_in (some flight_out) 6 =
        some train0 := by
  refine ⟨?_, ?_, ?_, by
    norm_num [find_train_connections, layover_of, db_train, flight_in, flight_out, train0,
      List.filter, List.find?]⟩
  · unfold calculate_layover_quality_score
    norm_num
    split_ifs <;>
      exact congrArg (fun s : ℚ => min 10 (max 0 s)) (by ring1)
  · unfold calculate_layover_quality_score
    norm_num
    split_ifs <;>
      exact congrArg (fun s : ℚ => min 10 (max 0 s)) (by ring1)
  · simp only [find_train_connections]
    rw [if_pos (Or.inl h)]

/-- **C3.** For a self-transfer connection, the risk is the layover bucket
(+40 below 90, +20 below 120, +10 below 180, else 0), plus 0.5 × the first
leg's predicted delay probability, plus 0.3 × the second leg's when a
second leg exists, plus a flat +20 when the first leg's average historical
delay exceeds half the layover, clamped to [0,100].  (The lower clamp is
vacuous because delay probabilities are 0–100 percentages, hypotheses
`h1`/`h2`.) -/
theorem self_transfer_risk_formula (db : DB) (c : FlightConnection)
    (hst : c.is_self_transfer = true)
    (h1 : 0 ≤ (predict_delay db c.first_flight).delay_probability)
    (h2 : ∀ f2, c.second_flight = some f2 →
      0 ≤ (predict_delay db f2).delay_probability) :
    calculate_self_transfer_risk db c =
      max 0 (min 100 (
        (if c.layover_minutes < 90 then (40 : ℚ)
         else if c.layover_minutes < 120 then 20
         else if c.layover_minutes < 180 then 10 else 0)
        + (predict_delay db c.first_flight).delay_probability * 0.5
        + (match c.second_flight with
           | some f2 => (predict_delay db f2).delay_probability * 0.3
           | none => 0)
        + (if ((predict_delay db c.first_flight).avg_delay_minutes : ℚ) >
              (c.layover_minutes : ℚ) * 0.5 then 20 else 0))) := by
  have hb : (0:ℚ) ≤ (if c.layover_minutes < 90 then (40 : ℚ)
      else if c.layover_minutes < 120 then 20
      else if c.layover_minutes < 180 then 10 else 0) := by
    split_ifs <;> norm_num
  have hp1 : (0:ℚ) ≤ (predict_delay db c.first_flight).delay_probability * 0.5 :=
    mul_nonneg h1 (by norm_num)
  have hp2 : (0:ℚ) ≤ (match c.second_flight with
      | some f2 => (predict_delay db f2).delay_probability * 0.3
      | none => 0) := by
    rcases hsf : c.second_flight with _ | f2
    · simp [hsf]
    · simp only [hsf]
      exact mul_nonneg (h2 f2 hsf) (by norm_num)
  have hflat : (0:ℚ) ≤ (if ((predict_delay db c.first_flight).avg_delay_minutes : ℚ) >
      (c.layover_minutes : ℚ) * 0.5 then (20:ℚ) else 0) := by
    split_ifs <;> norm_num
  have hS0 := add_nonneg (add_nonneg (add_nonneg hb hp1) hp2) hflat
  rw [max_eq_right (le_min (by norm_num) hS0)]
  unfold calculate_self_transfer_risk
  rw [if_neg (not_not_intro hst)]
  rcases hsf : c.second_flight with _ | f2 <;>
    simp only [hsf, Option.map] <;>
    split_ifs <;>
    exact congrArg (fun s : ℚ => min 100 s) (by ring1)

/-- Witness for **C3** at a concrete self-transfer connection with a
30-minute layover and no historical data (default 15% / 30 min). -/
theorem self_transfer_risk_formula_witness :
    calculate_self_transfer_risk db_empty conn_self =
      max 0 (min 100 (
        (if conn_self.layover_minutes < 90 then (40 : ℚ)
         else if conn_self.layover_minutes < 120 then 20
         else if conn_self.layover_minutes < 180 then 10 else 0)
        + (predict_delay db_empty conn_self.first_flight).delay_probability * 0.5
        + (match conn_self.second_flight with
           | some f2 => (predict_delay db_empty f2).delay_probability * 0.3
           | none => 0)
        + (if ((predict_delay db_empty conn_self.first_flight).avg_delay_minutes : ℚ) >
              (conn_self.layover_minutes : ℚ) * 0.5 then 20 else 0))) :=
  self_transfer_risk_formula db_empty conn_self rfl
    (by norm_num [predict_delay, db_empty, conn_self, flight_in, List.find?])
    (fun f2 h => Option.noConfusion h)

/-- **C1.** The radius search returns exactly the airports whose distance
to the query point is within the radius, each paired with that distance,
and the list is sorted ascending by distance.  `dist` abstracts the
geodesic distance; the statement holds for every distance function. -/
theorem find_airports_in_radius_spec (dist : ℚ × ℚ → ℚ × ℚ → ℚ) (db : DB)
    (dest_lat dest_lon radius_km : ℚ) :
    (∀ p ∈ find_airports_in_radius dist db dest_lat dest_lon radius_km,
      p.airport ∈ db.airports ∧
      p.distance_km = dist (dest_lat, dest_lon) (p.airport.latitude, p.airport.longitude) ∧
      p.distance_km ≤ radius_km)
    ∧ (∀ a ∈ db.airports,
      dist (dest_lat, dest_lon) (a.latitude, a.longitude) ≤ radius_km →
        (⟨a, dist (dest_lat, dest_lon) (a.latitude, a.longitude)⟩ : AirportDistance) ∈
          find_airports_in_radius dist db dest_lat dest_lon radius_km)
    ∧ List.Pairwise (fun p q : AirportDistance => p.distance_km ≤ q.distance_km)
        (find_airports_in_radius dist db dest_lat dest_lon radius_km) := by
  refine ⟨?_, ?_, ?_⟩
  · intro p hp
    simp only [find_airports_in_radius, List.mem_mergeSort, List.mem_filterMap] at hp
    obtain ⟨a, ha, hfa⟩ := hp
    rw [airports_all, List.mem_mergeSort] at ha
    by_cases hle : dist (dest_lat, dest_lon) (a.latitude, a.longitude) ≤ radius_km
    · rw [if_pos hle] at hfa
      obtain rfl := Option.some.inj hfa
      exact ⟨ha, rfl, hle⟩
    · rw [if_neg hle] at hfa
      exact absurd hfa (by simp)
  · intro a ha hle
    simp only [find_airports_in_radius, List.mem_mergeSort, List.mem_filterMap]
    refine ⟨a, ?_, ?_⟩
    · rw [airports_all, List.mem_mergeSort]
      exact ha
    · rw [if_pos hle]
  · refine List.Pairwise.imp (fun h => of_decide_eq_true h)
      (List.sorted_mergeSort ?_ ?_ _)
    · intro a b c hab hbc
      exact decide_eq_true (le_trans (of_decide_eq_true hab) (of_decide_eq_true hbc))
    · intro a b
      simp only [Bool.or_eq_true, decide_eq_true_eq]
      exact le_total _ _

/-- Witness for **C1**: on a concrete two-airport database, the airport at
the query point is returned paired with its distance. -/
theorem find_airports_in_radius_spec_witness :
    (⟨airport1, dist1 (51, 0) (airport1.latitude, airport1.longitude)⟩ : AirportDistance) ∈
      find_airports_in_radius dist1 db1 51 0 100 :=
  (find_airports_in_radius_spec dist1 db1 51 0 100).2.1 airport1
    (by simp [db1]) (by norm_num [dist1, airport1])

/-- Witness for **C8 (amended)** at a concrete airport and flight pair
with a negative layover. -/
theorem layover_boundary_witness :
    calculate_layover_quality_score airport1 45 =
      min 10 (max 0 (airport1.layover_quality_score
        + (if airport1.has_lounge then 1.5 else 0)
        + (if airport1.has_sleeping_pods then 1 else 0)))
    ∧ calculate_layover_quality_score airport1 60 =
      min 10 (max 0 (airport1.layover_quality_score + 2
        + (if airport1.has_lounge then 1.5 else 0)
        + (if airport1.has_sleeping_pods then 1 else 0)))
    ∧ find_train_connections db_empty flight_in (some flight_in) 6 = none
    ∧ find_train_connections db_train flight_in (some flight_out) 6 =
        some train0 :=
  layover_boundary airport1 db_empty flight_in flight_in
    (by norm_num [layover_of, flight_in])


/-- `decide`-level comparison of airport names, via the character list. -/
theorem nameLE_decide {a b : Airport} (h : a.name.toList ≤ b.name.toList) :
    decide (a.name ≤ b.name) = true :=
  decide_eq_true (String.le_iff_toList_le.mpr h)

/-- `airports_all` on the two-airport database, evaluated. -/
theorem airports_all_db1 : airports_all db1 = [airport1, airport2] := by
  unfold airports_all db1
  exact List.mergeSort_of_sorted (List.pairwise_pair.mpr (nameLE_decide (by decide)))

/-- Destination "STN" resolves through the airport-code branch. -/
theorem resolve_db1_STN :
    resolve_destination_coords geocode_none db1 "STN" = some (52, 1) := by
  have h1 : py_strip "STN" = "STN" := by simp only [py_strip]; decide
  have h2 : py_upper "STN" = "STN" := by simp only [py_upper]; decide
  unfold resolve_destination_coords
  simp only [h1, h2]
  rw [if_pos (by decide), airports_all_db1]
  simp only [airport1, airport2, List.find?]
  decide

/-- Origin code "ZZZ" matches no airport of `db1`. -/
theorem find_db1_ZZZ :
    (airports_all db1).find? (fun a => decide (a.iata_code = py_upper (py_strip "ZZZ")))
      = none := by
  rw [airports_all_db1]
  simp only [airport1, airport2, py_strip, py_upper]
  decide

/-- A free-form address that geocoding cannot resolve. -/
theorem resolve_nowhere :
    resolve_destination_coords geocode_none db_empty "nowhere st" = none := by
  have h1 : py_strip "nowhere st" = "nowhere st" := by simp only [py_strip]; decide
  unfold resolve_destination_coords
  simp only [h1]
  rw [if_neg (by decide)]
  rfl

/-- **C6 counterexample.** The claim says an unknown origin code fails with
`OriginNotFound` rather than returning an ordinary empty list; but on a
database where the destination resolves and the origin code "ZZZ" is
unknown, `find_best_alternates` returns the plain empty list — the value
the spec contract (`findAlternatesSpec`) reserves for an error. -/
theorem alternates_error_not_signalled :
    find_best_alternates dist1 geocode_none db1 "ZZZ" "STN" 0 100 = []
    ∧ findAlternatesSpec dist1 geocode_none db1 "ZZZ" "STN" 0 100 =
        Except.error SearchError.originNotFound := by
  constructor
  · unfold find_best_alternates
    rw [resolve_db1_STN]
    simp only []
    rw [if_neg (by norm_num : ¬((52:ℚ) = 0 ∨ (1:ℚ) = 0)), find_db1_ZZZ]
  · unfold findAlternatesSpec
    rw [resolve_db1_STN]
    simp only []
    rw [find_db1_ZZZ]

/-- **C6 (amended).** When the origin code matches no known airport, or
the destination cannot be resolved, `find_best_alternates` returns the
empty list; no error value is raised, so these failures are
indistinguishable from a genuine zero-result search. -/
theorem alternates_failures_return_empty (dist : ℚ × ℚ → ℚ × ℚ → ℚ)
    (geocode : String → Option (ℚ × ℚ)) (db : DB) (oc addr : String)
    (date : Int) (radius : ℚ) :
    (resolve_destination_coords geocode db addr = none →
      find_best_alternates dist geocode db oc addr date radius = [])
    ∧ (∀ la lo, resolve_destination_coords geocode db addr = some (la, lo) →
        (airports_all db).find? (fun a => decide (a.iata_code = py_upper (py_strip oc)))
          = none →
        find_best_alternates dist geocode db oc addr date radius = []) := by
  constructor
  · intro h
    unfold find_best_alternates
    rw [h]
  · intro la lo hres hfind
    unfold find_best_alternates
    rw [hres]
    simp only []
    split_ifs with h0
    · rfl
    · rw [hfind]

/-- Witness for **C6 (amended)**: a failed geocode and an unknown origin
code both yield the empty list. -/
theorem alternates_failures_return_empty_witness :
    find_best_alternates dist1 geocode_none db_empty "ZZZ" "nowhere st" 0 100 = []
    ∧ find_best_alternates dist1 geocode_none db1 "ZZZ" "STN" 0 100 = [] :=
  ⟨(alternates_failures_return_empty dist1 geocode_none db_empty "ZZZ" "nowhere st" 0 100).1
      resolve_nowhere,
    (alternates_failures_return_empty dist1 geocode_none db1 "ZZZ" "STN" 0 100).2
      52 1 resolve_db1_STN find_db1_ZZZ⟩

/-- Transitivity of the `(totalCost, totalTime)` sort key. -/
theorem altLE_trans (a b c : AltResult) (hab : altLE a b = true) (hbc : altLE b c = true) :
    altLE a c = true := by
  simp only [altLE, decide_eq_true_eq] at *
  rcases hab with h | ⟨h, h'⟩ <;> rcases hbc with g | ⟨g, g'⟩
  · exact Or.inl (lt_trans h g)
  · exact Or.inl (lt_of_lt_of_eq h g)
  · exact Or.inl (lt_of_eq_of_lt h g)
  · exact Or.inr ⟨h.trans g, le_trans h' g'⟩

/-- Totality of the `(totalCost, totalTime)` sort key. -/
theorem altLE_total (a b : AltResult) : altLE a b || altLE b a := by
  simp only [altLE, Bool.or_eq_true, decide_eq_true_eq]
  rcases lt_trichotomy a.total_cost_eur b.total_cost_eur with h | h | h
  · exact Or.inl (Or.inl h)
  · rcases le_total a.total_time_minutes b.total_time_minutes with ht | ht
    · exact Or.inl (Or.inr ⟨h, ht⟩)
    · exact Or.inr (Or.inr ⟨h.symm, ht⟩)
  · exact Or.inr (Or.inl h)

/-- **C5.** Every `find_best_alternates` result list is sorted ascending
by `(totalCost, totalTime)` lexicographically, and the sort is stable:
two rows with equal keys that appear in discovery order in the
result-building loop appear in the same order in the final list. -/
theorem find_best_alternates_sorted (dist : ℚ × ℚ → ℚ × ℚ → ℚ)
    (geocode : String → Option (ℚ × ℚ)) (db : DB)
    (oc addr : String) (date : Int) (radius : ℚ) :
    List.Pairwise (fun x y : AltResult =>
        x.total_cost_eur < y.total_cost_eur ∨
        (x.total_cost_eur = y.total_cost_eur ∧ x.total_time_minutes ≤ y.total_time_minutes))
      (find_best_alternates dist geocode db oc addr date radius)
    ∧ (∀ la lo o x y,
        resolve_destination_coords geocode db addr = some (la, lo) →
        ¬(la = 0 ∨ lo = 0) →
        (airports_all db).find? (fun a => decide (a.iata_code = py_upper (py_strip oc)))
          = some o →
        x.total_cost_eur = y.total_cost_eur →
        x.total_time_minutes = y.total_time_minutes →
        List.Sublist [x, y] (alternates_loop dist db o addr date la lo radius) →
        List.Sublist [x, y] (find_best_alternates dist geocode db oc addr date radius)) := by
  constructor
  · unfold find_best_alternates
    rcases hres : resolve_destination_coords geocode db addr with _ | ⟨la, lo⟩
    · simp
    · simp only []
      split_ifs with h0
      · exact List.Pairwise.nil
      · rcases hfind : List.find?
            (fun a => decide (a.iata_code = py_upper (py_strip oc))) (airports_all db)
          with _ | o <;> rw [hfind]
        · exact List.Pairwise.nil
        · exact List.Pairwise.imp (fun h => of_decide_eq_true h)
            (List.sorted_mergeSort altLE_trans altLE_total _)
  · intro la lo o x y hres h0 hfind hc ht hsub
    unfold find_best_alternates
    rw [hres]
    simp only []
    rw [if_neg h0, hfind]
    exact List.pair_sublist_mergeSort altLE_trans altLE_total
      (decide_eq_true (Or.inr ⟨hc, le_of_eq ht⟩)) hsub


/-- `airports_all` on the stable-sort database, evaluated. -/
theorem airports_all_db5 : airports_all db5 = [b_origin, b_dest] := by
  unfold airports_all db5
  exact List.mergeSort_of_sorted (List.pairwise_pair.mpr (nameLE_decide (by decide)))

/-- The radius search on `db5` finds only the destination airport. -/
theorem radius_db5 :
    find_airports_in_radius dist1 db5 50 4 100 = [⟨b_dest, 0⟩] := by
  unfold find_airports_in_radius
  rw [airports_all_db5]
  norm_num [dist1, b_origin, b_dest, List.filterMap]

/-- The result-building loop on `db5` yields the two equal-key rows in
discovery (departure-time) order. -/
theorem loop_db5 :
    alternates_loop dist1 db5 b_origin "BBB" 0 50 4 100 = [x5, y5] := by
  unfold alternates_loop
  rw [radius_db5]
  simp only [List.flatMap_cons, List.flatMap_nil, List.append_nil, flights_filter]
  norm_num [db5, b_origin, b_dest, f5a, f5b, List.filter]
  rw [List.mergeSort_of_sorted (List.pairwise_pair.mpr (by decide))]
  norm_num [x5, y5, f5a, f5b, b_dest]

/-- Destination "BBB" resolves through the airport-code branch of `db5`. -/
theorem resolve_db5_BBB :
    resolve_destination_coords geocode_none db5 "BBB" = some (50, 4) := by
  have h1 : py_strip "BBB" = "BBB" := by simp only [py_strip]; decide
  have h2 : py_upper "BBB" = "BBB" := by simp only [py_upper]; decide
  unfold resolve_destination_coords
  simp only [h1, h2]
  rw [if_pos (by decide), airports_all_db5]
  simp only [b_origin, b_dest, List.find?]
  decide

/-- Origin code "AAA" matches `b_origin` in `db5`. -/
theorem find_db5_AAA :
    (airports_all db5).find? (fun a => decide (a.iata_code = py_upper (py_strip "AAA")))
      = some b_origin := by
  rw [airports_all_db5]
  simp only [b_origin, b_dest, py_strip, py_upper, List.find?]
  decide

/-- Witness for **C5**: the two equal-key rows of `db5` survive the sort
in discovery order. -/
theorem find_best_alternates_sorted_witness :
    List.Sublist [x5, y5] (find_best_alternates dist1 geocode_none db5 "AAA" "BBB" 0 100) :=
  (find_best_alternates_sorted dist1 geocode_none db5 "AAA" "BBB" 0 100).2 50 4 b_origin x5 y5
    resolve_db5_BBB (by norm_num) find_db5_AAA
    (by norm_num [x5, y5, calculate_total_trip_cost, f5a, f5b])
    (by norm_num [x5, y5, calculate_total_trip_time, f5a, f5b])
    (by rw [loop_db5])

/-- A returned train always satisfies the window and buffer checks of
`find_train_connections`. -/
theorem find_train_connections_some (db : DB) (f1 f2 : Flight) (mh : ℚ)
    (t : GroundTransport) (h : find_train_connections db f1 (some f2) mh = some t) :
    60 ≤ layover_of f1 f2 ∧ layover_of f1 f2 ≤ mh * 60 ∧
      (t.duration_minutes : ℚ) + 60 ≤ layover_of f1 f2 := by
  unfold find_train_connections at h
  dsimp only at h
  by_cases hw : layover_of f1 f2 < 60 ∨ layover_of f1 f2 > mh * 60
  · rw [if_pos hw] at h
    exact absurd h (by simp)
  · rw [if_neg hw] at h
    push_neg at hw
    have hp := List.find?_some h
    rw [decide_eq_true_eq] at hp
    exact ⟨hw.1, hw.2, hp⟩

/-- **C4.** Every candidate emitted by the multi-modal builder that
carries a train leg satisfies the train-eligibility window: its recorded
flight-to-flight layover `L` lies in `[60, 6 * 60]` minutes and the
train duration plus the 60-minute buffer fits inside `L`. -/
theorem train_link_window (db : DB) (origin destination : Airport) (date : Int)
    (c : Candidate) (hc : c ∈ create_multi_modal_connection db origin destination date)
    (ht : c.ctype = CandidateType.train_link) :
    ∃ L t, c.layover_minutes = some L ∧ c.train = some t ∧
      60 ≤ L ∧ L ≤ 6 * 60 ∧ (t.duration_minutes : ℚ) + 60 ≤ L := by
  unfold create_multi_modal_connection at hc
  rw [List.mem_mergeSort, List.mem_append] at hc
  rcases hc with hd | hm
  · rw [List.mem_map] at hd
    obtain ⟨f, -, rfl⟩ := hd
    simp at ht
  · rw [List.mem_flatMap] at hm
    obtain ⟨i, hi, hci⟩ := hm
    rcases h1 : (flights_filter db fun f =>
        decide (f.origin_iata = origin.iata_code ∧ f.dest_iata = i.iata_code ∧
          f.departure_date = date)).head? with _ | f1
    · rw [h1] at hci
      simp at hci
    · rw [h1] at hci
      dsimp only at hci
      rcases h2 : (flights_filter db fun f =>
          decide (f.origin_iata = i.iata_code ∧ f.dest_iata = destination.iata_code ∧
            f.departure_time ≥ f1.arrival_time + 60 * 60)).head? with _ | f2
      · rw [h2] at hci
        simp at hci
      · rw [h2] at hci
        dsimp only at hci
        rcases h3 : find_train_connections db f1 (some f2) 6 with _ | tr
        · rw [h3] at hci
          simp only [List.mem_singleton] at hci
          subst hci
          simp at ht
        · rw [h3] at hci
          simp only [List.mem_singleton] at hci
          subst hci
          obtain ⟨hw1, hw2, hw3⟩ := find_train_connections_some db f1 f2 6 tr h3
          exact ⟨layover_of f1 f2, tr, rfl, rfl, hw1, by linarith, hw3⟩

/-- `airports_all` on the multi-modal database, evaluated. -/
theorem airports_all_db4 : airports_all db4 = [a_origin, a_dest, a_mid] := by
  unfold airports_all db4
  refine List.mergeSort_of_sorted ?_
  refine List.Pairwise.cons ?_ (List.pairwise_pair.mpr (nameLE_decide (by decide)))
  intro b hb
  simp only [List.mem_cons, List.mem_singleton, List.not_mem_nil, or_false] at hb
  rcases hb with rfl | rfl
  · exact nameLE_decide (by decide)
  · exact nameLE_decide (by decide)

/-- On `db4`, the 30-minute train fits the 120-minute layover. -/
theorem find_train_db4 : find_train_connections db4 f41 (some f42) 6 = some t4 := by
  norm_num [find_train_connections, layover_of, db4, f41, f42, t4, List.filter, List.find?]

/-- The multi-modal builder on `db4` emits exactly the train-link
candidate `c4`. -/
theorem create_db4_eval : create_multi_modal_connection db4 a_origin a_dest 0 = [c4] := by
  have hdirect : flights_filter db4 (fun f =>
      decide (f.origin_iata = a_origin.iata_code ∧ f.dest_iata = a_dest.iata_code ∧
        f.departure_date = 0)) = [] := by
    unfold flights_filter
    have hf : List.filter (fun f =>
        decide (f.origin_iata = a_origin.iata_code ∧ f.dest_iata = a_dest.iata_code ∧
          f.departure_date = 0)) db4.flights = [] := by
      simp only [db4, f41, f42, a_origin, a_dest]
      decide
    rw [hf]
    exact List.mergeSort_nil
  have h1 : flights_filter db4 (fun f =>
      decide (f.origin_iata = a_origin.iata_code ∧ f.dest_iata = a_mid.iata_code ∧
        f.departure_date = 0)) = [f41] := by
    unfold flights_filter
    have hf : List.filter (fun f =>
        decide (f.origin_iata = a_origin.iata_code ∧ f.dest_iata = a_mid.iata_code ∧
          f.departure_date = 0)) db4.flights = [f41] := by
      simp only [db4, f41, f42, a_origin, a_mid]
      decide
    rw [hf]
    exact List.mergeSort_singleton f41
  have h2 : flights_filter db4 (fun f =>
      decide (f.origin_iata = a_mid.iata_code ∧ f.dest_iata = a_dest.iata_code ∧
        f.departure_time ≥ f41.arrival_time + 60 * 60)) = [f42] := by
    unfold flights_filter
    have hf : List.filter (fun f =>
        decide (f.origin_iata = a_mid.iata_code ∧ f.dest_iata = a_dest.iata_code ∧
          f.departure_time ≥ f41.arrival_time + 60 * 60)) db4.flights = [f42] := by
      simp only [db4, f41, f42, a_mid, a_dest]
      decide
    rw [hf]
    exact List.mergeSort_singleton f42
  have hint : (airports_all db4).filter (fun a =>
      decide (¬(a.iata_code = a_origin.iata_code ∨ a.iata_code = a_dest.iata_code)))
      = [a_mid] := by
    rw [airports_all_db4]
    simp only [a_origin, a_dest, a_mid]
    decide
  have htake : List.take 20 [a_mid] = [a_mid] := by
    simp only [a_mid]
    decide
  unfold create_multi_modal_connection
  rw [hdirect, hint, htake]
  simp only [List.map_nil, List.flatMap_cons, List.flatMap_nil, List.nil_append,
    List.append_nil]
  rw [h1]
  simp only [List.head?_cons]
  rw [h2]
  simp only [List.head?_cons]
  rw [find_train_db4]
  exact List.mergeSort_singleton c4


/-- Witness for **C4**: the train-link candidate emitted on `db4`
satisfies the eligibility window. -/
theorem train_link_window_witness :
    ∃ L t, c4.layover_minutes = some L ∧ c4.train = some t ∧
      60 ≤ L ∧ L ≤ 6 * 60 ∧ (t.duration_minutes : ℚ) + 60 ≤ L :=
  train_link_window db4 a_origin a_dest 0 c4
    (by rw [create_db4_eval]; exact List.mem_singleton_self c4) rfl

end NearNode
